import Mathlib

/-
Verification of nautobot_http_sd (main.go): a Go program that loads one
GraphQL query file, POSTs it to a Nautobot endpoint, decodes the device
list, filters and transforms devices into Prometheus HTTP-SD scrape
targets, serializes them once, and serves the bytes on every HTTP request.

The Go code is embedded shallowly: structs become structures, the device
loop becomes a filterMap, the CIDR-stripping regexp `/[0-9]+.*` (with `.`
not matching newline, all leftmost matches replaced by the empty string)
becomes the recursive scanner replCIDR, and main's control flow after
configuration loading becomes mainModel, parameterized by the filesystem,
the upstream HTTP exchange, and the JSON decoder.
-/

namespace NautobotSD

/-! ## Data model (structs of main.go) -/

structure Role where
  name : String
deriving DecidableEq

structure Location where
  name : String
deriving DecidableEq

structure IPAddress where
  address : String
deriving DecidableEq

/-- Go struct Device: Name, Role (pointer, nullable), Location (value),
PrimaryIP (pointer, nullable). -/
structure Device where
  name : String
  role : Option Role
  location : Location
  primaryIP : Option IPAddress
deriving DecidableEq

/-- One emitted scrape-target entry:
`map[string]interface{}{"targets": []string{deviceIP}, "labels": {...}}`.
The labels map is kept as an association list of (key, value) pairs. -/
structure ScrapeTarget where
  targets : List String
  labels : List (String × String)
deriving DecidableEq

/-! ## Address normalization: `re := regexp.MustCompile` of `/[0-9]+.*`,
`re.ReplaceAllString(addr, "")`.  In Go's regexp, `[0-9]` is an ASCII
digit and `.` matches any character except newline, so each match runs
from a `/` that is immediately followed by a digit up to (but excluding)
the next newline or the end of the string; ReplaceAllString deletes every
such leftmost non-overlapping match. -/

/-- Head of the character list is an ASCII digit. -/
def startsDigit : List Char → Bool
  | [] => false
  | c :: _ => c.isDigit

/-- Scanner equivalent of ReplaceAllString with the empty replacement:
in skip mode (first argument true) characters are dropped until a newline
(the `.*` part of a match being deleted); in scan mode a `/` followed by
a digit starts a deletion, any other character is copied. -/
def replCIDR : Bool → List Char → List Char
  | _, [] => []
  | true, c :: rest =>
      if c = '\n' then c :: replCIDR false rest else replCIDR true rest
  | false, c :: rest =>
      if c = '/' ∧ startsDigit rest = true then replCIDR true rest
      else c :: replCIDR false rest

/-- `deviceIP := re.ReplaceAllString(device.PrimaryIP.Address, "")`. -/
def normalizeAddr (s : String) : String :=
  String.mk (replCIDR false s.data)

/-! ## Target transformation (the device loop of main.go) -/

/-- Body of the device loop:
`if device.PrimaryIP != nil && device.Role != nil && device.Role.Name != ""`
then one entry is appended, else the device is skipped. -/
def deviceEntry (device : Device) : Option ScrapeTarget :=
  match device.primaryIP, device.role with
  | some ip, some role =>
      if role.name = "" then none
      else some { targets := [normalizeAddr ip.address],
                  labels := [("__meta_prometheus_job", role.name),
                             ("__meta_datacenter", device.location.name)] }
  | _, _ => none

/-- The whole loop: appending each emitted entry in device order to the
initially-nil `output` slice. -/
def transform (devices : List Device) : List ScrapeTarget :=
  devices.filterMap deviceEntry

/-! ## JSON serialization: `json.MarshalIndent(output, "", "  ")`.
Go marshals a nil slice as the literal `null` and a map with its keys in
ascending byte order; the default encoder escapes `"`, backslash, control
characters, and the HTML characters `<`, `>`, `&`. -/

/-- Lowercase hex digit, as used by Go's `\u00xx` escapes. -/
def hexDig (n : Nat) : Char :=
  if n < 10 then Char.ofNat (48 + n) else Char.ofNat (87 + n)

/-- Escape one character the way encoding/json (with HTML escaping, the
default) does. -/
def escChar (c : Char) : List Char :=
  if c = '"' then ['\\', '"']
  else if c = '\\' then ['\\', '\\']
  else if c = '\n' then ['\\', 'n']
  else if c = '\r' then ['\\', 'r']
  else if c = '\t' then ['\\', 't']
  else if c = '<' then "\\u003c".data
  else if c = '>' then "\\u003e".data
  else if c = '&' then "\\u0026".data
  else if c.toNat < 32 then
    ['\\', 'u', '0', '0', hexDig (c.toNat / 16), hexDig (c.toNat % 16)]
  else if c.toNat = 0x2028 then "\\u2028".data
  else if c.toNat = 0x2029 then "\\u2029".data
  else [c]

/-- A JSON string literal for s. -/
def jsonString (s : String) : String :=
  "\"" ++ String.mk (s.data.map escChar).flatten ++ "\""

/-- Insert a (key, value) pair keeping keys in ascending order (Go sorts
map keys before encoding). -/
def insertLabel (p : String × String) :
    List (String × String) → List (String × String)
  | [] => [p]
  | q :: rest => if q.1 < p.1 then q :: insertLabel p rest else p :: q :: rest

/-- Sort an association list by key, as Go's encoder does for maps. -/
def sortLabels : List (String × String) → List (String × String)
  | [] => []
  | p :: rest => insertLabel p (sortLabels rest)

/-- The labels map rendered at nesting depth 2 of MarshalIndent with
prefix `""` and indent two spaces. -/
def labelsJson (ls : List (String × String)) : String :=
  match sortLabels ls with
  | [] => "\x7b\x7d"
  | ps => "\x7b\n      " ++
      String.intercalate ",\n      "
        (ps.map (fun p => jsonString p.1 ++ ": " ++ jsonString p.2)) ++
      "\n    \x7d"

/-- The targets array rendered at nesting depth 2. -/
def targetsJson : List String → String
  | [] => "[]"
  | ts => "[\n      " ++ String.intercalate ",\n      " (ts.map jsonString) ++
      "\n    ]"

/-- One output entry rendered at nesting depth 1; the entry map's keys
sort as "labels" before "targets". -/
def entryJson (e : ScrapeTarget) : String :=
  "\x7b\n    \"labels\": " ++ labelsJson e.labels ++
  ",\n    \"targets\": " ++ targetsJson e.targets ++ "\n  \x7d"

/-- `json.MarshalIndent(output, "", "  ")`: the nil slice (no entry was
ever appended) marshals to `null`; a non-empty slice to an indented
array. -/
def marshalOutput : List ScrapeTarget → String
  | [] => "null"
  | es => "[\n  " ++ String.intercalate ",\n  " (es.map entryJson) ++ "\n]"

/-! ## The main pipeline after configuration loading -/

/-- The fixed query file path: `queryFile := "graphql_queries/query.gql"`. -/
def queryFilePath : String := "graphql_queries/query.gql"

/-- Where a run of main ends up once configuration is loaded: each
constructor is one of main's early returns, or the serving state holding
the bytes `jsonData` that every HTTP response will carry. -/
inductive MainResult where
  | queryFileError
  | authError (status : Nat) (body : String)
  | upstreamError (status : Nat) (body : String)
  | decodeError
  | emptyDevices
  | serving (jsonData : String)
deriving DecidableEq

/-- The message main prints in each terminal state (the fatal prints, the
log line for zero devices, and the startup banner). -/
def logMessage : MainResult → String
  | .queryFileError => "Error reading query file:"
  | .authError _ _ => "Error: Invalid token provided."
  | .upstreamError _ _ => "Error: An unexpected error occurred."
  | .decodeError => "Error decoding JSON:"
  | .emptyDevices =>
      "No devices found in response. Check your GraphQL query or Nautobot instance."
  | .serving _ => "Serving on :6645"

/-- The empty-check and the serving branch:
`if response.Data.Devices == nil || len(response.Data.Devices) == 0`
returns, else output is built, marshalled and served. -/
def handleDevices (devices : List Device) : MainResult :=
  if devices.isEmpty then .emptyDevices
  else .serving (marshalOutput (transform devices))

/-- Decoding the 200 body: `json.Unmarshal` failure returns, success
hands the device list on. -/
def handleBody (decode : String → Option (List Device)) (body : String) :
    MainResult :=
  match decode body with
  | none => .decodeError
  | some devices => handleDevices devices

/-- `if resp.StatusCode != http.StatusOK`: the body is read for
diagnostics, then 401 is reported as an invalid token and any other
non-200 as an unexpected error; a 200 proceeds to decoding. -/
def classifyAndProceed (decode : String → Option (List Device))
    (status : Nat) (body : String) : MainResult :=
  if status ≠ 200 then
    if status = 401 then .authError status body
    else .upstreamError status body
  else handleBody decode body

/-- main after configuration loading, parameterized by the filesystem
(fs : path to contents), the upstream exchange (query text to HTTP status
and body), and the JSON decoder: read the single query file (fatal on
failure), send it, classify the status, decode, check for emptiness,
transform, marshal. -/
def mainModel (fs : String → Option String)
    (upstream : String → Nat × String)
    (decode : String → Option (List Device)) : MainResult :=
  match fs queryFilePath with
  | none => .queryFileError
  | some query =>
      classifyAndProceed decode (upstream query).1 (upstream query).2

/-! ## The Discovery Server -/

/-- An incoming HTTP request, as far as the handler could observe it. -/
structure Request where
  path : String
  method : String
deriving DecidableEq

/-- An outgoing HTTP response. -/
structure HttpResponse where
  status : Nat
  contentType : String
  body : String
deriving DecidableEq

/-- The handler registered for pattern "/" (which in net/http matches
every path): it sets Content-Type and writes the cached jsonData; the
implicit status of a plain Write is 200. -/
def handle (jsonData : String) (_ : Request) : HttpResponse :=
  { status := 200, contentType := "application/json", body := jsonData }

/-! ## Predicates and fixtures used by the claim theorems -/

/-- The emission condition in the spec's words (for comparison with the
code): primary address non-empty AND role non-null AND role name a
non-empty string. -/
def specEmitsC1 (d : Device) : Bool :=
  (match d.primaryIP with | some ip => !(ip.address == "") | none => false) &&
  (match d.role with | some r => !(r.name == "") | none => false)

/-- The emission condition the code actually checks:
`device.PrimaryIP != nil && device.Role != nil && device.Role.Name != ""` —
the primary-IP pointer is present (its address string is not inspected),
the role is present, and the role name is non-empty. -/
def presentAndNamed (d : Device) : Bool :=
  d.primaryIP.isSome &&
  (match d.role with | some r => !(r.name == "") | none => false)

/-- A device whose primary-IP field is present but holds the empty
address string. -/
def emptyAddrDevice : Device :=
  { name := "d1", role := some { name := "switch" },
    location := { name := "dc" }, primaryIP := some { address := "" } }

/-- The spec's end-to-end example device. -/
def dSw1 : Device :=
  { name := "sw1", role := some { name := "switch" },
    location := { name := "dc1" }, primaryIP := some { address := "192.0.2.1/24" } }

/-- A device excluded by the filter (no role). -/
def dNoRole : Device :=
  { name := "r0", role := none,
    location := { name := "dc0" }, primaryIP := some { address := "10.0.0.1/8" } }

/-- A second valid device. -/
def dRtr : Device :=
  { name := "rtr1", role := some { name := "router" },
    location := { name := "dc2" }, primaryIP := some { address := "10.1.2.3/16" } }

/-- The entry emitted for dSw1. -/
def eSw1 : ScrapeTarget :=
  { targets := ["192.0.2.1"],
    labels := [("__meta_prometheus_job", "switch"), ("__meta_datacenter", "dc1")] }

/-- The entry emitted for dRtr. -/
def eRtr : ScrapeTarget :=
  { targets := ["10.1.2.3"],
    labels := [("__meta_prometheus_job", "router"), ("__meta_datacenter", "dc2")] }

/-- A filesystem with every read failing. -/
def noFs : String → Option String := fun _ => none

/-- A filesystem where every path reads the same contents. -/
def constFs (q : String) : String → Option String := fun _ => some q

/-- A filesystem holding the query file plus unrelated files with other
contents. -/
def fsWithExtra : String → Option String :=
  fun p => if p = "graphql_queries/query.gql" then some "q" else some "EXTRA"

/-- An upstream that always answers with the given status and body. -/
def constUpstream (status : Nat) (body : String) : String → Nat × String :=
  fun _ => (status, body)

/-- A decoder that always succeeds with the given device list. -/
def constDecode (devices : List Device) : String → Option (List Device) :=
  fun _ => some devices

/-! ## Lemmas about address normalization -/

/-- No `/` in the list is immediately followed by an ASCII digit, i.e.
the string contains no match of the CIDR regexp. -/
def noSlashDigit : List Char → Bool
  | [] => true
  | [_] => true
  | a :: b :: rest => (!(a == '/' && b.isDigit)) && noSlashDigit (b :: rest)

/-- The head, if any, is not an ASCII digit. -/
def headNotDigit : List Char → Bool
  | [] => true
  | c :: _ => !c.isDigit

theorem noSlashDigit_tail {a : Char} {l : List Char}
    (h : noSlashDigit (a :: l) = true) : noSlashDigit l = true := by
  cases l with
  | nil => rfl
  | cons b rest =>
      have := h
      simp only [noSlashDigit, Bool.and_eq_true] at this
      exact this.2

theorem replCIDR_of_noSlashDigit :
    ∀ l : List Char, noSlashDigit l = true → replCIDR false l = l := by
  intro l
  induction l with
  | nil => intro _; rfl
  | cons c rest ih =>
      intro h
      by_cases hc : c = '/' ∧ startsDigit rest = true
      · exfalso
        obtain ⟨hc1, hc2⟩ := hc
        cases rest with
        | nil => simp [startsDigit] at hc2
        | cons b r =>
            subst hc1
            simp only [startsDigit] at hc2
            simp [noSlashDigit, hc2] at h
      · simp only [replCIDR, if_neg hc]
        rw [ih (noSlashDigit_tail h)]

theorem headNotDigit_replCIDR_true :
    ∀ l : List Char, headNotDigit (replCIDR true l) = true := by
  intro l
  induction l with
  | nil => rfl
  | cons c rest ih =>
      by_cases hc : c = '\n'
      · simp only [replCIDR, if_pos hc, headNotDigit]
        subst hc; decide
      · simpa only [replCIDR, if_neg hc] using ih

theorem headNotDigit_replCIDR_false :
    ∀ l : List Char, headNotDigit l = true →
      headNotDigit (replCIDR false l) = true := by
  intro l h
  cases l with
  | nil => rfl
  | cons c rest =>
      by_cases hc : c = '/' ∧ startsDigit rest = true
      · simp only [replCIDR, if_pos hc]
        exact headNotDigit_replCIDR_true rest
      · simpa only [replCIDR, if_neg hc, headNotDigit] using h

theorem noSlashDigit_cons (c : Char) (l : List Char)
    (h : noSlashDigit l = true)
    (hd : c ≠ '/' ∨ headNotDigit l = true) : noSlashDigit (c :: l) = true := by
  cases l with
  | nil => rfl
  | cons b rest =>
      simp only [noSlashDigit, Bool.and_eq_true]
      refine ⟨?_, h⟩
      rcases hd with hne | hb
      · simp [hne]
      · simp only [headNotDigit] at hb
        simp [Bool.not_eq_true (b.isDigit)] at hb ⊢
        exact Or.inr hb

theorem headNotDigit_of_not_startsDigit {l : List Char}
    (h : startsDigit l = false) : headNotDigit l = true := by
  cases l with
  | nil => rfl
  | cons b rest => simpa [startsDigit, headNotDigit] using h

theorem noSlashDigit_replCIDR :
    ∀ (l : List Char) (m : Bool), noSlashDigit (replCIDR m l) = true := by
  intro l
  induction l with
  | nil => intro m; cases m <;> rfl
  | cons c rest ih =>
      intro m
      cases m with
      | true =>
          by_cases hc : c = '\n'
          · simp only [replCIDR, if_pos hc]
            exact noSlashDigit_cons c _ (ih false) (Or.inl (by subst hc; decide))
          · simpa only [replCIDR, if_neg hc] using ih true
      | false =>
          by_cases hc : c = '/' ∧ startsDigit rest = true
          · simp only [replCIDR, if_pos hc]
            exact ih true
          · simp only [replCIDR, if_neg hc]
            by_cases hslash : c = '/'
            · have hsd : startsDigit rest = false := by
                by_contra hx
                exact hc ⟨hslash, by simpa using hx⟩
              exact noSlashDigit_cons c _ (ih false)
                (Or.inr (headNotDigit_replCIDR_false rest
                  (headNotDigit_of_not_startsDigit hsd)))
            · exact noSlashDigit_cons c _ (ih false) (Or.inl hslash)

/-! ## General lemmas about the transform -/

theorem transform_singleton (d : Device) :
    transform [d] = (deviceEntry d).toList := by
  simp only [transform, List.filterMap]
  cases deviceEntry d <;> rfl

/-! ## Claim theorems -/

/-- Claim C1 counterexample: the device emptyAddrDevice has an empty
primary address string (so the claim's condition "primary address is
non-empty" fails and the claim predicts exclusion), yet the code emits a
ScrapeTarget for it, because the filter checks only that the primary-IP
pointer is non-nil, never the address string. -/
theorem emptyAddress_device_still_emits :
    specEmitsC1 emptyAddrDevice = false ∧
    transform [emptyAddrDevice] =
      [{ targets := [""],
         labels := [("__meta_prometheus_job", "switch"),
                    ("__meta_datacenter", "dc")] }] := by
  constructor
  · decide
  · decide

/-- Claim C1 (amended): the transformer emits a ScrapeTarget for a record
r iff r's primary-IP field is present (non-null; the address string may be
empty) AND r's role is non-null AND r's role name is a non-empty string;
records failing any of these are silently excluded (transform is total and
simply omits them) without failing the run. -/
theorem emits_iff_ip_present_and_role_named (d : Device) :
    transform [d] ≠ [] ↔ presentAndNamed d = true := by
  rw [transform_singleton]
  cases d with
  | mk nm role loc ip =>
      cases ip with
      | none => simp [deviceEntry, presentAndNamed]
      | some a =>
          cases role with
          | none => simp [deviceEntry, presentAndNamed]
          | some r =>
              by_cases h : r.name = "" <;>
                simp [deviceEntry, presentAndNamed, h]

/-- Claim C2 counterexample: when the decoded device list is empty the run
ends in the emptyDevices early return — main logs and returns before
`http.HandleFunc` and `http.ListenAndServe` are ever reached — rather than
serving the empty JSON array. -/
theorem zero_devices_counterexample :
    mainModel (constFs "q") (constUpstream 200 "body") (constDecode []) =
      MainResult.emptyDevices ∧
    mainModel (constFs "q") (constUpstream 200 "body") (constDecode []) ≠
      MainResult.serving "[]" := by
  constructor
  · decide
  · decide

/-- Claim C2 (amended): when the upstream returns zero devices, the
process logs "No devices found ..." and exits without starting the
Discovery Server; only when at least one device is returned does the run
reach the serving state, whose body is the snapshot serialized from the
transform. -/
theorem zero_devices_exit_nonempty_serves
    (fs : String → Option String) (upstream : String → Nat × String)
    (decode : String → Option (List Device)) (q body : String)
    (devices : List Device)
    (hfs : fs queryFilePath = some q) (hup : upstream q = (200, body))
    (hdec : decode body = some devices) :
    (devices = [] → mainModel fs upstream decode = MainResult.emptyDevices) ∧
    (devices ≠ [] →
      mainModel fs upstream decode =
        MainResult.serving (marshalOutput (transform devices))) := by
  cases devices with
  | nil =>
      refine ⟨fun _ => ?_, fun h => absurd rfl h⟩
      simp [mainModel, hfs, hup, classifyAndProceed, handleBody, hdec,
        handleDevices]
  | cons d ds =>
      refine ⟨fun h => by simp at h, fun _ => ?_⟩
      simp [mainModel, hfs, hup, classifyAndProceed, handleBody, hdec,
        handleDevices]

/-- Witness for the amended C2, instantiated with one valid device. -/
theorem zero_devices_exit_nonempty_serves_witness :
    mainModel (constFs "q") (constUpstream 200 "body") (constDecode [dSw1]) =
      MainResult.serving (marshalOutput (transform [dSw1])) :=
  (zero_devices_exit_nonempty_serves (constFs "q") (constUpstream 200 "body")
    (constDecode [dSw1]) "q" "body" [dSw1] rfl rfl rfl).2 (by decide)

/-- Claim C3 counterexample: a failed read of the (single, fixed) query
file ends the run in the queryFileError early return — it is fatal, the
upstream is never queried and the server never starts; there is no
query-directory scan whose failure could be distinguished from it. -/
theorem query_file_failure_counterexample :
    mainModel noFs (constUpstream 200 "body") (constDecode [dSw1]) =
      MainResult.queryFileError := by
  decide

/-- Claim C3 (amended): the program reads exactly one fixed query file;
failure to read that file is fatal to the process (it logs
"Error reading query file:" and returns before any further step); no
directory of query files is enumerated. -/
theorem query_file_failure_is_fatal
    (fs : String → Option String) (upstream : String → Nat × String)
    (decode : String → Option (List Device))
    (h : fs queryFilePath = none) :
    mainModel fs upstream decode = MainResult.queryFileError ∧
    logMessage MainResult.queryFileError = "Error reading query file:" := by
  refine ⟨?_, rfl⟩
  simp [mainModel, h]

/-- Witness for the amended C3. -/
theorem query_file_failure_is_fatal_witness :
    mainModel noFs (constUpstream 200 "body") (constDecode []) =
      MainResult.queryFileError :=
  (query_file_failure_is_fatal noFs (constUpstream 200 "body")
    (constDecode []) rfl).1

/-- Claim C4: address normalization removes the suffix starting at a `/`
followed by digits: a string with no such occurrence is returned
unchanged, "10.0.0.5/24" normalizes to "10.0.0.5", and normalization is
idempotent. -/
theorem normalizeAddr_spec :
    (∀ s : String, noSlashDigit s.data = true → normalizeAddr s = s) ∧
    normalizeAddr "10.0.0.5/24" = "10.0.0.5" ∧
    (∀ s : String, normalizeAddr (normalizeAddr s) = normalizeAddr s) := by
  refine ⟨?_, by decide, ?_⟩
  · intro s h
    show String.mk (replCIDR false s.data) = s
    rw [replCIDR_of_noSlashDigit s.data h]
  · intro s
    show String.mk (replCIDR false (replCIDR false s.data)) =
      String.mk (replCIDR false s.data)
    rw [replCIDR_of_noSlashDigit _ (noSlashDigit_replCIDR s.data false)]

/-- Witness for C4's no-suffix clause at a concrete address. -/
theorem normalizeAddr_spec_witness :
    noSlashDigit ("192.0.2.7".data) = true ∧
    normalizeAddr "192.0.2.7" = "192.0.2.7" :=
  ⟨by decide, normalizeAddr_spec.1 "192.0.2.7" (by decide)⟩

/-- Claim C5: every record passing the filter yields exactly one entry
whose targets list is the single normalized address and whose labels bind
the job label to the role name and the datacenter label to the location
name (the location may be the empty string, the label is still emitted);
the spec's end-to-end example device yields exactly the expected entry. -/
theorem valid_device_entry_shape :
    (∀ (nm rn ln addr : String), rn ≠ "" →
      transform [{ name := nm, role := some { name := rn },
                   location := { name := ln },
                   primaryIP := some { address := addr } }] =
        [{ targets := [normalizeAddr addr],
           labels := [("__meta_prometheus_job", rn),
                      ("__meta_datacenter", ln)] }]) ∧
    transform [dSw1] = [eSw1] := by
  constructor
  · intro nm rn ln addr h
    rw [transform_singleton]
    simp [deviceEntry, h]
  · decide

/-- Witness for C5 with an empty location name: the datacenter label is
still emitted, bound to the empty string. -/
theorem valid_device_entry_shape_witness :
    transform [{ name := "sw1", role := some { name := "switch" },
                 location := { name := "" },
                 primaryIP := some { address := "192.0.2.1/24" } }] =
      [{ targets := [normalizeAddr "192.0.2.1/24"],
         labels := [("__meta_prometheus_job", "switch"),
                    ("__meta_datacenter", "")] }] :=
  valid_device_entry_shape.1 "sw1" "switch" "" "192.0.2.1/24" (by decide)

/-- Claim C6: the handler answers every request — whatever its path and
method — with status 200, Content-Type application/json and the cached
snapshot bytes; any two requests receive identical responses. -/
theorem handler_uniform_response (jsonData : String) (r r' : Request) :
    handle jsonData r =
      { status := 200, contentType := "application/json", body := jsonData } ∧
    handle jsonData r = handle jsonData r' :=
  ⟨rfl, rfl⟩

/-- Claim C7: status 200 proceeds to decoding; 401 yields the
authentication-specific failure with the invalid-token guidance; every
other non-200 status yields the generic upstream failure with its generic
message; both failures carry the captured response body and are distinct
outcomes. -/
theorem status_classification :
    (∀ (dec : String → Option (List Device)) (body : String),
      classifyAndProceed dec 200 body = handleBody dec body) ∧
    (∀ (dec : String → Option (List Device)) (body : String),
      classifyAndProceed dec 401 body = MainResult.authError 401 body ∧
      logMessage (MainResult.authError 401 body) =
        "Error: Invalid token provided.") ∧
    (∀ (dec : String → Option (List Device)) (s : Nat) (body : String),
      s ≠ 200 → s ≠ 401 →
      classifyAndProceed dec s body = MainResult.upstreamError s body ∧
      logMessage (MainResult.upstreamError s body) =
        "Error: An unexpected error occurred.") ∧
    (∀ (s s' : Nat) (b b' : String),
      MainResult.authError s b ≠ MainResult.upstreamError s' b') := by
  refine ⟨?_, ?_, ?_, ?_⟩
  · intro dec body; simp [classifyAndProceed]
  · intro dec body; exact ⟨by simp [classifyAndProceed], rfl⟩
  · intro dec s body h200 h401
    exact ⟨by simp [classifyAndProceed, h200, h401], rfl⟩
  · intro s s' b b' h; exact MainResult.noConfusion h

/-- Witness for C7 at status 500 with the spec's example body. -/
theorem status_classification_witness :
    classifyAndProceed (constDecode []) 500 "internal error" =
      MainResult.upstreamError 500 "internal error" :=
  (status_classification.2.2.1 (constDecode []) 500 "internal error"
    (by decide) (by decide)).1

/-- Claim C8: the transform distributes over list concatenation (so the
results of successive inputs are concatenated in order), and two valid
records keep their relative order: the output for xs ++ r1 :: ys ++ r2 ::
zs places r1's entry before r2's. -/
theorem transform_order_preservation :
    (∀ l1 l2 : List Device,
      transform (l1 ++ l2) = transform l1 ++ transform l2) ∧
    (∀ (xs ys zs : List Device) (r1 r2 : Device) (e1 e2 : ScrapeTarget),
      deviceEntry r1 = some e1 → deviceEntry r2 = some e2 →
      transform (xs ++ r1 :: ys ++ r2 :: zs) =
        transform xs ++ e1 :: transform ys ++ e2 :: transform zs) := by
  constructor
  · intro l1 l2; simp [transform]
  · intro xs ys zs r1 r2 e1 e2 h1 h2
    simp [transform, h1, h2]

/-- Witness for C8: a valid device before an invalid one before a valid
one; the two emitted entries keep their order. -/
theorem transform_order_preservation_witness :
    transform ([] ++ dSw1 :: [dNoRole] ++ dRtr :: []) =
      transform [] ++ eSw1 :: transform [dNoRole] ++ eRtr :: transform [] :=
  transform_order_preservation.2 [] [dNoRole] [] dSw1 dRtr eSw1 eRtr
    (by decide) (by decide)

/-- Claim C9: a non-empty device list that the filter empties out reaches
the serving state with the bytes "null" — the marshaling of the nil output
slice, not the empty array "[]" — and the handler gives that null body,
with status 200 and the JSON content type, to every client. -/
theorem all_filtered_serves_null (devices : List Device) (r : Request)
    (hne : devices ≠ []) (hall : ∀ d ∈ devices, deviceEntry d = none) :
    handleDevices devices = MainResult.serving "null" ∧
    handle "null" r =
      { status := 200, contentType := "application/json", body := "null" } ∧
    ("null" : String) ≠ "[]" := by
  have ht : transform devices = [] := by
    simp [transform, List.filterMap_eq_nil_iff]
    exact hall
  refine ⟨?_, rfl, by decide⟩
  cases devices with
  | nil => exact absurd rfl hne
  | cons d ds => simp [handleDevices, ht, marshalOutput]

/-- Witness for C9: one device, excluded for having no role. -/
theorem all_filtered_serves_null_witness :
    handleDevices [dNoRole] = MainResult.serving "null" :=
  (all_filtered_serves_null [dNoRole] { path := "/", method := "GET" }
    (by decide) (by decide)).1

/-- Claim C10: the query file is the single fixed path
"graphql_queries/query.gql", and the run's outcome depends on the
filesystem only through that one path: two filesystems agreeing there
produce identical outcomes, whatever other files hold. -/
theorem single_query_file_determines_output :
    queryFilePath = "graphql_queries/query.gql" ∧
    (∀ (fs fs' : String → Option String) (upstream : String → Nat × String)
       (decode : String → Option (List Device)),
      fs queryFilePath = fs' queryFilePath →
      mainModel fs upstream decode = mainModel fs' upstream decode) := by
  refine ⟨rfl, ?_⟩
  intro fs fs' upstream decode h
  unfold mainModel
  rw [h]

/-- Witness for C10: a filesystem with extra unrelated files gives the
same outcome as one holding only the query contents. -/
theorem single_query_file_determines_output_witness :
    mainModel fsWithExtra (constUpstream 200 "body") (constDecode [dSw1]) =
      mainModel (constFs "q") (constUpstream 200 "body")
        (constDecode [dSw1]) :=
  single_query_file_determines_output.2 fsWithExtra (constFs "q")
    (constUpstream 200 "body") (constDecode [dSw1]) (by decide)

end NautobotSD
